import Mathlib

/-
Verification of the knotty package-registry server.

This file embeds the parts of the server that govern permission
implication, user visibility, checksum and tag validation, token
identification, package and namespace mutation, and the associated
error responses.  Each definition is a direct translation of the
corresponding Python function; the comments name the source file.

Python conventions carried over:
  truthiness of an optional boolean is modelled by pyTruthy;
  Python sets of strings are modelled by lists used up to membership;
  raising a typed exception is modelled by returning an error value.
-/

/-! ## Enumerations (knotty/model.py) -/

/-- PermissionCode from knotty/model.py. -/
inductive PermissionCode
  | namespace_owner
  | namespace_admin
  | namespace_edit
  | package_create
  | package_edit
deriving DecidableEq, Repr

/-- UserRole from knotty/model.py. -/
inductive UserRole
  | regular
  | admin
  | banned
deriving DecidableEq, Repr

/-- ChecksumAlgorithm from knotty/model.py; the second component of the
enum value is the raw digest length in bytes. -/
inductive ChecksumAlgorithm
  | md5
  | sha1
  | sha256
  | sha512
deriving DecidableEq, Repr

/-- The length attribute attached to each ChecksumAlgorithm member
(raw digest length in bytes). -/
def ChecksumAlgorithm.length : ChecksumAlgorithm → Nat
  | .md5 => 16
  | .sha1 => 20
  | .sha256 => 32
  | .sha512 => 64

/-! ## Python truthiness helpers -/

/-- Truthiness of a Python value of type bool or None: None is falsy. -/
def pyTruthy : Option Bool → Bool
  | some b => b
  | none => false

/-! ## ACL engine (knotty/acl.py) -/

/-- Rank used only to justify termination of has_namespace_permission,
which recurses from a permission code to the codes above it in the
implication hierarchy. -/
def permissionRank : PermissionCode → Nat
  | .namespace_owner => 0
  | .namespace_admin => 1
  | .namespace_edit => 2
  | .package_create => 2
  | .package_edit => 2

/-- has_namespace_permission from knotty/acl.py.  The Python match has a
catch-all arm for the three codes below namespace-admin; it is spelled
out per constructor here.  The Python set argument is modelled by a
list used only through membership. -/
def has_namespace_permission (user_permissions : List PermissionCode) :
    PermissionCode → Bool
  | .namespace_owner => user_permissions.contains .namespace_owner
  | .namespace_admin =>
      has_namespace_permission user_permissions .namespace_owner
        || user_permissions.contains .namespace_admin
  | .namespace_edit =>
      has_namespace_permission user_permissions .namespace_admin
        || user_permissions.contains .namespace_edit
  | .package_create =>
      has_namespace_permission user_permissions .namespace_admin
        || user_permissions.contains .package_create
  | .package_edit =>
      has_namespace_permission user_permissions .namespace_admin
        || user_permissions.contains .package_edit
termination_by p => permissionRank p
decreasing_by all_goals decide

/-- has_namespace_permissions from knotty/acl.py: the bulk check is the
conjunction of the single checks.  The Python code first converts
user_permissions to a set, which only affects membership lookups and is
therefore dropped. -/
def has_namespace_permissions (user_permissions : List PermissionCode)
    (needed_permissions : List PermissionCode) : Bool :=
  needed_permissions.all
    (fun permission => has_namespace_permission user_permissions permission)

/-- is_admin from knotty/acl.py. -/
def is_admin (role : UserRole) : Bool :=
  role == UserRole.admin

/-- check_user_role from knotty/acl.py: true for an admin, false for a
banned user, and None (no decision) for a regular user. -/
def check_user_role (role : UserRole) : Option Bool :=
  if is_admin role then some true
  else if role == UserRole.banned then some false
  else none

/-- can_view_user from knotty/acl.py.  The Python body tests the
truthiness of the optional user_role_check, so None is treated like
false. -/
def can_view_user (auth_username : String) (user_role_check : Option Bool)
    (username : String) : Bool :=
  if auth_username == username then true
  else if pyTruthy user_role_check then true
  else false

/-- check_namespace_owner from knotty/acl.py: returns true (never
false), or None when neither branch fires. -/
def check_namespace_owner (user_role_check : Option Bool)
    (namespace_permissions : List PermissionCode) : Option Bool :=
  if pyTruthy user_role_check then some true
  else if namespace_permissions.contains .namespace_owner then some true
  else none

/-- check_namespace_admin from knotty/acl.py. -/
def check_namespace_admin (namespace_owner_check : Option Bool)
    (namespace_permissions : List PermissionCode) : Option Bool :=
  if pyTruthy namespace_owner_check then some true
  else if namespace_permissions.contains .namespace_admin then some true
  else none

/-- require from knotty/acl.py, as a predicate: the request proceeds
exactly when this is true; otherwise a no-permission error is raised.
The allow_by_default parameter substitutes for None. -/
def require_passes (check : Option Bool) (allow_by_default : Bool) : Bool :=
  pyTruthy (some (check.getD allow_by_default))

/-! ## Permission implication as the specification words it

Section 4.1 of the specification defines implies(held, required)
recursively; the following definition transcribes those words with the
recursion unfolded into flat disjunctions, to be compared against the
implementation above. -/

/-- Permission implication as defined by the specification text:
namespace-owner requires namespace-owner in the held set; namespace-admin
requires the owner implication or namespace-admin in the held set; any
other code requires the admin implication or the code itself. -/
def implies_spec (held : List PermissionCode) : PermissionCode → Bool
  | .namespace_owner => held.contains .namespace_owner
  | .namespace_admin =>
      held.contains .namespace_owner || held.contains .namespace_admin
  | p =>
      held.contains .namespace_owner || held.contains .namespace_admin
        || held.contains p

/-- User-view check as the claim states it: true exactly when the viewer
is the target, or the viewer is a global admin, or the viewer is active
(global role is not banned). -/
def can_view_user_claim (viewer : String) (role : UserRole)
    (target : String) : Bool :=
  viewer == target || decide (role = UserRole.admin)
    || decide (role ≠ UserRole.banned)

/-! ## Checksum validation (knotty/schema.py) -/

/-- Character class of the ChecksumValue regex, which after lowercasing
must match one or more of a-f or 0-9. -/
def is_checksum_char (c : Char) : Bool :=
  (decide ('0' ≤ c) && decide (c ≤ '9'))
    || (decide ('a' ≤ c) && decide (c ≤ 'f'))

/-- ChecksumValue from knotty/schema.py: a ConstrainedStr with
to_lower = True and the anchored regex for nonempty lowercase hex.
Lowercasing and the regex are spelled over the character list of the
string. -/
def checksum_value_parse (s : String) : Option String :=
  let v := String.mk (s.data.map Char.toLower)
  if v.data.length ≥ 1 && v.data.all is_checksum_char then some v else none

/-- PackageChecksum.length_must_be_valid from knotty/schema.py: the
validator rejects the value unless len(v) equals algorithm.length.
The value v is the hex string, so its length is counted in hex digits,
while algorithm.length is the digest length in bytes. -/
def length_must_be_valid (algorithm : ChecksumAlgorithm) (v : String) : Bool :=
  v.length == algorithm.length

/-- Validation of one PackageChecksum entry: the value must parse as a
ChecksumValue and then pass length_must_be_valid. -/
def package_checksum_accepted (algorithm : ChecksumAlgorithm)
    (value : String) : Bool :=
  match checksum_value_parse value with
  | none => false
  | some v => length_must_be_valid algorithm v

/-- Byte length of the stored Checksum row: storage.py applies
bytes.fromhex to the validated hex string, so the stored value has half
as many bytes as the string has hex digits. -/
def stored_checksum_byte_length (v : String) : Nat :=
  v.length / 2

/-! ## PackageCreate tag validation (knotty/schema.py) -/

/-- A PackageTag payload from knotty/schema.py. -/
structure PkgTag where
  name : String
  version : String
deriving DecidableEq, Repr

/-- Outcome of running a pydantic validator.  A ValueError becomes a
validation error (HTTP 422); any other exception, such as a KeyError,
escapes pydantic and aborts the request as an internal error. -/
inductive ValidatorOutcome
  | accepted
  | valueError (msg : String)
  | keyError (key : String)
deriving DecidableEq, Repr

/-- The values dict visible to a validator of the tags field of
PackageCreate: it maps each previously validated field name to its
value.  Only the versions entry carries data the validator reads; it
holds the version strings of the payload. -/
def package_create_values (versions : List String) :
    List (String × List String) :=
  [("name", []), ("summary", []), ("namespace", []), ("labels", []),
   ("owners", []), ("versions", versions)]

/-- One step of tags_must_refer_to_valid_versions from knotty/schema.py
(an each_item validator): it subscripts values with the key "version",
which raises KeyError when that key is absent from the values dict. -/
def validate_tag_item (values : List (String × List String))
    (tag : PkgTag) : ValidatorOutcome :=
  match values.lookup "version" with
  | none => .keyError "version"
  | some versions =>
      if versions.any (fun version => tag.version == version) then .accepted
      else .valueError "tag does not refer to valid version"

/-- The each_item validator applied to every tag in order; the first
non-accepting outcome aborts. -/
def validate_tag_items (values : List (String × List String)) :
    List PkgTag → ValidatorOutcome
  | [] => .accepted
  | tag :: rest =>
      match validate_tag_item values tag with
      | .accepted => validate_tag_items values rest
      | e => e

/-- Validation of the tags field of a PackageCreate payload against its
versions, as knotty/schema.py performs it. -/
def package_create_tags_validation (versions : List String)
    (tags : List PkgTag) : ValidatorOutcome :=
  validate_tag_items (package_create_values versions) tags

/-! ## Error taxonomy (knotty/error.py) -/

/-- The JSON error response produced by a KnottyException: HTTP status,
detail string, and the optional what field added by NotFoundException. -/
structure ErrorBody where
  status : Nat
  detail : String
  what : Option String
deriving DecidableEq, Repr

/-- UnauthorizedException with its class description as the default
detail. -/
def unauthorized_error (detail : Option String) : ErrorBody :=
  ⟨401, detail.getD "Could not authenticate the user", none⟩

/-- NoPermissionException: HTTP 403; a passed detail overrides the class
description. -/
def no_permission_error (detail : Option String) : ErrorBody :=
  ⟨403, detail.getD "Access denied due to insufficient permissions", none⟩

/-- NotFoundException: HTTP 404 with the what field set. -/
def not_found_error (what : String) : ErrorBody :=
  ⟨404, what ++ " not found", some what⟩

/-- AlreadyExistsException: HTTP 409 with the what field set.  The JSON
model carries what as a required field; the shared ErrorBody keeps it in
the same optional slot. -/
def already_exists_error (what : String) : ErrorBody :=
  ⟨409, what ++ " already exists", some what⟩

/-- NoNamespaceOwnerRemainsException: HTTP 400. -/
def no_namespace_owner_remains_error : ErrorBody :=
  ⟨400, "Operation would leave namespace without owner", none⟩

/-- NoPackageOwnerRemainsException: HTTP 400. -/
def no_package_owner_remains_error : ErrorBody :=
  ⟨400, "Operation would leave package without owner", none⟩

/-- RoleNotEmptyException: HTTP 400. -/
def role_not_empty_error : ErrorBody :=
  ⟨400, "Cannot remove namespace role with members", none⟩

/-- UnknownOwnersException: HTTP 400; the detail is assembled from the
unknown usernames. -/
def unknown_owners_error (usernames : List String) : ErrorBody :=
  let detail := "Owner list includes unknown user"
  let detail := if usernames.length != 1 then detail ++ "s" else detail
  let detail :=
    if usernames.isEmpty then detail
    else detail ++ " " ++ String.intercalate ", " usernames
  ⟨400, detail, none⟩

/-- UnknownDependenciesException: HTTP 400. -/
def unknown_dependencies_error (packages : List String) : ErrorBody :=
  match packages with
  | [] => ⟨400, "Package requires unknown dependencies", none⟩
  | [package] =>
      ⟨400, "Package requires unknown dependency " ++ package, none⟩
  | _ =>
      ⟨400, "Package requires unknown dependencies "
        ++ String.intercalate ", " packages, none⟩

/-! ## Token identification (knotty/auth.py) -/

/-- Result of jose jwt.decode on the bearer token: a decoded payload
with its optional sub claim, an ExpiredSignatureError, or any other
JWTError (missing, malformed, or badly signed token). -/
inductive JwtDecode
  | ok (sub : Option String)
  | expiredSignature
  | otherJwtError
deriving DecidableEq, Repr

/-- Result of get_current_user. -/
inductive AuthResult
  | ok (username : String)
  | err (e : ErrorBody)
deriving DecidableEq, Repr

/-- get_current_user from knotty/auth.py.  The try block catches
JWTError generically; ExpiredSignatureError is a subclass of JWTError,
so an expired token takes the same branch as a malformed one and gets
the default unauthorized detail.  A payload without sub, and a subject
that resolves to no current user, also get the default detail. -/
def get_current_user (decoded : JwtDecode) (user_exists : String → Bool) :
    AuthResult :=
  match decoded with
  | .expiredSignature => .err (unauthorized_error none)
  | .otherJwtError => .err (unauthorized_error none)
  | .ok none => .err (unauthorized_error none)
  | .ok (some sub) =>
      let username := sub.drop ("username:".length)
      if user_exists username then .ok username
      else .err (unauthorized_error none)

/-! ## Namespace storage (knotty/storage.py)

One namespace is modelled as its roles table and its members table.
A member references its role by name, which is unique per namespace by
the (namespace_id, name) constraint of knotty/model.py. -/

/-- One row of namespace_roles together with its permission set. -/
structure NsRole where
  name : String
  permissions : List PermissionCode
deriving DecidableEq, Repr

/-- One row of namespace_users: the member username and the name of the
assigned role. -/
structure NsMember where
  username : String
  role_name : String
deriving DecidableEq, Repr

/-- The tables of one namespace. -/
structure NamespaceDb where
  roles : List NsRole
  members : List NsMember
deriving DecidableEq, Repr

/-- get_namespace_role_exists from knotty/storage.py. -/
def get_namespace_role_exists (db : NamespaceDb) (role : String) : Bool :=
  db.roles.any (fun r => r.name == role)

/-- get_namespace_role_permissions from knotty/storage.py: None when the
role does not exist, otherwise the permission codes joined through the
role with that name. -/
def get_namespace_role_permissions (db : NamespaceDb) (role : String) :
    Option (List PermissionCode) :=
  if get_namespace_role_exists db role then
    some ((db.roles.filter (fun r => r.name == role)).flatMap
      (fun r => r.permissions))
  else none

/-- get_namespace_role_empty from knotty/storage.py: true exactly when
no namespace_users row references a role with that name (NOT EXISTS in
the SQL). -/
def get_namespace_role_empty (db : NamespaceDb) (role : String) : Bool :=
  !(db.members.any (fun m => m.role_name == role))

/-- delete_namespace_role from knotty/storage.py: session.delete of the
role model found by name. -/
def delete_namespace_role (db : NamespaceDb) (role : String) : NamespaceDb :=
  { db with roles := db.roles.eraseP (fun r => r.name == role) }

/-- get_namespace_user_permissions from knotty/storage.py: the codes
reached by joining the user through its memberships to its role and the
role permissions. -/
def get_namespace_user_permissions (db : NamespaceDb) (username : String) :
    List PermissionCode :=
  (db.members.filter (fun m => m.username == username)).flatMap
    (fun m => (db.roles.filter (fun r => r.name == m.role_name)).flatMap
      (fun r => r.permissions))

/-- get_namespace_owners from knotty/storage.py: usernames of members
whose role carries the namespace-owner permission. -/
def get_namespace_owners (db : NamespaceDb) : List String :=
  (db.members.filter (fun m =>
    (db.roles.filter (fun r => r.name == m.role_name)).any
      (fun r => r.permissions.contains .namespace_owner))).map
    (fun m => m.username)

/-- delete_namespace_user from knotty/storage.py: the function asserts
that the membership row exists, then deletes it; a missing row is an
assertion failure. -/
def delete_namespace_user (db : NamespaceDb) (username : String) :
    Option NamespaceDb :=
  if db.members.any (fun m => m.username == username) then
    some { db with
      members := db.members.eraseP (fun m => m.username == username) }
  else none

/-! ## Namespace routes (knotty/route/namespace.py) -/

/-- Outcome of one request handler: a success message, a typed error
response, or an internal error from a failed assertion. -/
inductive RouteOutcome
  | ok (message : String)
  | error (e : ErrorBody)
  | internalError
deriving DecidableEq, Repr

/-- The namespace-admin check resolved for a request, following the
dependency chain check_user_role, check_namespace_owner,
check_namespace_admin of knotty/acl.py. -/
def resolve_namespace_admin_check (db : NamespaceDb)
    (auth_username : String) (auth_role : UserRole) : Option Bool :=
  let namespace_permissions := get_namespace_user_permissions db auth_username
  check_namespace_admin
    (check_namespace_owner (check_user_role auth_role) namespace_permissions)
    namespace_permissions

/-- delete_namespace_role from knotty/route/namespace.py (the handler of
DELETE /namespace/ns/role/r), for an existing namespace.  It requires
the namespace-admin check, then checks role existence, then that the
caller implies every permission of the role, then consults
get_namespace_role_empty before deleting. -/
def delete_namespace_role_route (db : NamespaceDb) (auth_username : String)
    (auth_role : UserRole) (role : String) : RouteOutcome × NamespaceDb :=
  let user_namespace_permissions := get_namespace_user_permissions db auth_username
  if !(require_passes (resolve_namespace_admin_check db auth_username auth_role)
      false) then
    (.error (no_permission_error none), db)
  else if !(get_namespace_role_exists db role) then
    (.error (not_found_error "Role"), db)
  else
    match get_namespace_role_permissions db role with
    | none => (.internalError, db)
    | some role_permissions =>
      if !(is_admin auth_role)
          && !(has_namespace_permissions user_namespace_permissions
            role_permissions) then
        (.error (no_permission_error none), db)
      else if get_namespace_role_empty db role then
        (.error role_not_empty_error, db)
      else
        (.ok "Namespace role deleted", delete_namespace_role db role)

/-- delete_namespace_user from knotty/route/namespace.py (the handler of
DELETE /namespace/ns/user/u), for an existing namespace.  The
namespace-admin check is required only when the target is not the
caller; then the caller must imply every permission of the target, and
the last-owner guard runs before the membership row is deleted. -/
def delete_namespace_user_route (db : NamespaceDb) (auth_username : String)
    (auth_role : UserRole) (username : String) : RouteOutcome × NamespaceDb :=
  let user_namespace_permissions := get_namespace_user_permissions db auth_username
  if username != auth_username
      && !(require_passes (resolve_namespace_admin_check db auth_username auth_role)
        false) then
    (.error (no_permission_error none), db)
  else
    let deleted_user_permissions := get_namespace_user_permissions db username
    if !(is_admin auth_role)
        && !(has_namespace_permissions user_namespace_permissions
          deleted_user_permissions) then
      (.error (no_permission_error none), db)
    else
      let owners := get_namespace_owners db
      if owners.contains username && decide (owners.length ≤ 1) then
        (.error no_namespace_owner_remains_error, db)
      else
        match delete_namespace_user db username with
        | none => (.internalError, db)
        | some db2 => (.ok "User removed from namespace", db2)

/-! ## Registry storage (knotty/storage.py, package side)

The registry is modelled as the users table (usernames), the namespaces
(each with its member and role tables, keyed by name), and the packages
table.  Package rows keep the fields the package routes read and
write. -/

/-- One row of packages with its owner set, labels, version strings and
tags.  The namespace column is the optional namespace name. -/
structure PkgRecord where
  name : String
  nspace : Option String
  summary : String
  labels : List String
  owners : List String
  versions : List String
  tags : List PkgTag
deriving DecidableEq, Repr

/-- One version of a PackageCreate payload, reduced to the fields the
create route reads: the version string and the dependency package
names. -/
structure PkgVersionPayload where
  version : String
  dependencies : List String
deriving DecidableEq, Repr

/-- A PackageCreate payload (knotty/schema.py), after schema validation.
labels and owners are Python sets, modelled as lists used up to
membership. -/
structure PackageCreateBody where
  name : String
  summary : String
  nspace : Option String
  labels : List String
  owners : List String
  versions : List PkgVersionPayload
  tags : List PkgTag
deriving DecidableEq, Repr

/-- A PackageEdit payload (knotty/schema.py). -/
structure PackageEditBody where
  name : String
  summary : String
  nspace : Option String
  labels : List String
  owners : List String
deriving DecidableEq, Repr

/-- The registry state. -/
structure RegistryDb where
  users : List String
  namespaces : List (String × NamespaceDb)
  packages : List PkgRecord
deriving DecidableEq, Repr

/-- get_namespace_exists from knotty/storage.py. -/
def get_namespace_exists (db : RegistryDb) (name : String) : Bool :=
  (db.namespaces.lookup name).isSome

/-- get_namespace_user_permissions from knotty/storage.py, resolved
against a namespace of the registry by name; the join yields nothing
for an unknown namespace. -/
def registry_namespace_user_permissions (db : RegistryDb) (name : String)
    (username : String) : List PermissionCode :=
  match db.namespaces.lookup name with
  | some nsdb => get_namespace_user_permissions nsdb username
  | none => []

/-- get_package_exists from knotty/storage.py. -/
def get_package_exists (db : RegistryDb) (package : String) : Bool :=
  db.packages.any (fun p => p.name == package)

/-- get_package_brief from knotty/storage.py: the package row found by
name (the projection step of to_package_brief is dropped because
PkgRecord already carries exactly the read fields). -/
def get_package_brief (db : RegistryDb) (package : String) :
    Option PkgRecord :=
  db.packages.find? (fun p => p.name == package)

/-- get_package_id from knotty/storage.py, reduced to existence: the
routes use the id only as a handle for the named package. -/
def get_package_id_exists (db : RegistryDb) (package : String) : Bool :=
  db.packages.any (fun p => p.name == package)

/-- get_unknown_users from knotty/storage.py: the requested usernames
minus the known ones (the Python set difference, kept in request
order). -/
def get_unknown_users (db : RegistryDb) (users : List String) :
    List String :=
  users.filter (fun u => !(db.users.contains u))

/-- get_unknown_packages from knotty/storage.py. -/
def get_unknown_packages (db : RegistryDb) (packages : List String) :
    List String :=
  packages.filter (fun p => !(get_package_exists db p))

/-- get_package_owner_exists from knotty/storage.py. -/
def get_package_owner_exists (db : RegistryDb) (package : String)
    (username : String) : Bool :=
  db.packages.any (fun p => p.name == package && p.owners.contains username)

/-- get_package_namespace from knotty/storage.py. -/
def get_package_namespace (db : RegistryDb) (package : String) :
    Option String :=
  (db.packages.find? (fun p => p.name == package)).bind (fun p => p.nspace)

/-- create_package from knotty/storage.py.  The namespace model and the
tag target versions are asserted or subscripted; a miss is an internal
failure.  The stored owners are the user rows whose username is in the
owner set, in users-table order.  Labels are upserted; the projection
stores them on the row. -/
def create_package (db : RegistryDb) (body : PackageCreateBody)
    (owners : List String) : Option RegistryDb :=
  let namespace_ok :=
    match body.nspace with
    | some ns => get_namespace_exists db ns
    | none => true
  if !namespace_ok then none
  else if !(body.tags.all (fun tag =>
      body.versions.any (fun v => v.version == tag.version))) then none
  else
    some { db with packages := db.packages ++
      [{ name := body.name
         nspace := body.nspace
         summary := body.summary
         labels := body.labels
         owners := db.users.filter (fun u => owners.contains u)
         versions := body.versions.map (fun v => v.version)
         tags := body.tags }] }

/-- edit_package from knotty/storage.py: the package row found by name
is updated in place.  The namespace column is set from
get_namespace_model, which yields None for a name that does not exist;
the stored owners are the user rows whose username is in the new owner
set.  Label garbage collection only touches the labels table and has no
effect on this projection. -/
def edit_package (db : RegistryDb) (package : String)
    (body : PackageEditBody) : Option RegistryDb :=
  if !(db.packages.any (fun p => p.name == package)) then none
  else
    some { db with packages := db.packages.map (fun p =>
      if p.name == package then
        { p with
          name := body.name
          summary := body.summary
          nspace := body.nspace.bind (fun ns =>
            if get_namespace_exists db ns then some ns else none)
          labels := body.labels
          owners := db.users.filter (fun u => body.owners.contains u) }
      else p) }

/-! ## Package routes (knotty/route/package.py) -/

/-- can_create_package from knotty/acl.py: bool(check_user_role). -/
def can_create_package (auth_role : UserRole) : Bool :=
  pyTruthy (check_user_role auth_role)

/-- can_edit_package from knotty/acl.py: an admin or banned verdict is
final; otherwise a package owner may edit, and otherwise the caller
needs the package-edit implication in the namespace of the package. -/
def can_edit_package (db : RegistryDb) (auth_username : String)
    (auth_role : UserRole) (package : String) : Bool :=
  match check_user_role auth_role with
  | some b => b
  | none =>
    if get_package_owner_exists db package auth_username then true
    else
      match get_package_namespace db package with
      | none => false
      | some ns =>
          has_namespace_permission
            (registry_namespace_user_permissions db ns auth_username)
            .package_edit

/-- can_edit_owners from knotty/route/package.py. -/
def can_edit_owners (db : RegistryDb) (auth_username : String)
    (current_package : PkgRecord) (admin : Bool) : Bool :=
  if current_package.owners.contains auth_username then true
  else
    match current_package.nspace with
    | none => false
    | some ns =>
        if !admin && !(has_namespace_permission
            (registry_namespace_user_permissions db ns auth_username)
            .namespace_admin) then false
        else true

/-- The namespace block of create_package in knotty/route/package.py:
for a requested namespace, a missing namespace is a 404 and a caller
who is neither admin nor holds the package-create implication there is
a 403. -/
def create_package_namespace_check (db : RegistryDb) (auth_username : String)
    (admin : Bool) (nspace : Option String) : Option ErrorBody :=
  match nspace with
  | none => none
  | some ns =>
    if !(get_namespace_exists db ns) then some (not_found_error "Namespace")
    else if !admin && !(has_namespace_permission
        (registry_namespace_user_permissions db ns auth_username)
        .package_create) then
      some (no_permission_error none)
    else none

/-- create_package from knotty/route/package.py (the handler of
POST /package). -/
def create_package_route (db : RegistryDb) (auth_username : String)
    (auth_role : UserRole) (body : PackageCreateBody) :
    RouteOutcome × RegistryDb :=
  if !(can_create_package auth_role) then
    (.error (no_permission_error none), db)
  else
    match create_package_namespace_check db auth_username (is_admin auth_role)
      body.nspace with
    | some e => (.error e, db)
    | none =>
      if get_package_exists db body.name then
        (.error (already_exists_error "Package"), db)
      else
        let owners :=
          if body.owners.contains auth_username then body.owners
          else body.owners ++ [auth_username]
        let unknown_owners := get_unknown_users db owners
        if !unknown_owners.isEmpty then
          (.error (unknown_owners_error unknown_owners), db)
        else
          let unknown_deps := get_unknown_packages db
            (body.versions.flatMap (fun v => v.dependencies))
          if !unknown_deps.isEmpty then
            (.error (unknown_dependencies_error unknown_deps), db)
          else
            match create_package db body owners with
            | none => (.internalError, db)
            | some db2 => (.ok "Package created", db2)

/-- edit_package from knotty/route/package.py (the handler of
POST /package/p).  When the requested namespace differs from the
current one, removal needs the namespace-admin implication in the old
namespace and addition needs the package-create implication in the new
one, with an admin exempt from both.  The Python comparison of
current_package.owners (a list) against body.owners (a set) is always
unequal, so the owner-edit permission check always runs. -/
def edit_package_route (db : RegistryDb) (auth_username : String)
    (auth_role : UserRole) (package : String) (body : PackageEditBody) :
    RouteOutcome × RegistryDb :=
  match get_package_brief db package with
  | none => (.error (not_found_error "Package"), db)
  | some current_package =>
    let admin := is_admin auth_role
    if !(can_edit_package db auth_username auth_role package) then
      (.error (no_permission_error none), db)
    else if body.nspace != current_package.nspace
        && (match current_package.nspace with
            | some old_ns => !admin && !(has_namespace_permission
                (registry_namespace_user_permissions db old_ns auth_username)
                .namespace_admin)
            | none => false) then
      (.error (no_permission_error none), db)
    else if body.nspace != current_package.nspace
        && (match body.nspace with
            | some new_ns => !admin && !(has_namespace_permission
                (registry_namespace_user_permissions db new_ns auth_username)
                .package_create)
            | none => false) then
      (.error (no_permission_error none), db)
    else if current_package.name != body.name
        && get_package_exists db body.name then
      (.error (already_exists_error "Package"), db)
    else if !(can_edit_owners db auth_username current_package admin) then
      (.error (no_permission_error none), db)
    else
      let unknown_owners := get_unknown_users db body.owners
      if !unknown_owners.isEmpty then
        (.error (unknown_owners_error unknown_owners), db)
      else if body.owners.isEmpty then
        (.error no_package_owner_remains_error, db)
      else
        match edit_package db package body with
        | none => (.internalError, db)
        | some db2 => (.ok "Package updated", db2)

/-- get_package_id from knotty/route/package.py: the dependency that
resolves the package path segment for every package sub-resource
endpoint (version and tag routes).  A missing package raises
NoPermissionException with the string Package as the detail. -/
def get_package_id_route (db : RegistryDb) (package : String) :
    Except ErrorBody Unit :=
  if get_package_id_exists db package then .ok ()
  else .error (no_permission_error (some "Package"))

/-- get_package_versions from knotty/route/package.py (the handler of
GET /package/p/version): the version list of the package, after
get_package_id resolves the path. -/
def get_package_versions_route (db : RegistryDb) (package : String) :
    Except ErrorBody (List String) :=
  match get_package_id_route db package with
  | .error e => .error e
  | .ok _ =>
      .ok ((db.packages.filter (fun p => p.name == package)).flatMap
        (fun p => p.versions))

/-! ## The cross-namespace move condition as the claim words it -/

/-- Authorization condition claimed for an edit that changes the
namespace of a package: the caller is a global admin, or holds the
removal permission (the namespace-admin implication) in the old
namespace when one exists, and a permission implying package-create in
the new namespace when one is requested. -/
def namespace_move_allowed (db : RegistryDb) (auth_username : String)
    (auth_role : UserRole) (old_ns new_ns : Option String) : Bool :=
  is_admin auth_role
    || ((match old_ns with
         | some ns => has_namespace_permission
             (registry_namespace_user_permissions db ns auth_username)
             .namespace_admin
         | none => true)
        && (match new_ns with
            | some ns => has_namespace_permission
                (registry_namespace_user_permissions db ns auth_username)
                .package_create
            | none => true))

/-! ## Helper lemmas -/

/-- Case analysis of has_namespace_permission with the recursion
unfolded. -/
theorem has_namespace_permission_eq (held : List PermissionCode)
    (p : PermissionCode) :
    has_namespace_permission held p = implies_spec held p := by
  cases p <;>
    simp [has_namespace_permission, implies_spec, Bool.or_assoc]

/-- A held permission code is always implied. -/
theorem has_namespace_permission_of_mem (held : List PermissionCode)
    (p : PermissionCode) (h : p ∈ held) :
    has_namespace_permission held p = true := by
  have hc : held.contains p = true := List.elem_iff.mpr h
  rw [has_namespace_permission_eq]
  cases p <;> simp [implies_spec] <;> simp_all

/-- A permission set always implies itself in bulk. -/
theorem has_namespace_permissions_self (l : List PermissionCode) :
    has_namespace_permissions l l = true := by
  simp only [has_namespace_permissions, List.all_eq_true]
  intro p hp
  exact has_namespace_permission_of_mem l p hp

/-- The last-owner guard condition of delete_namespace_user: membership
together with length at most one pins the owner list down to the
singleton. -/
theorem contains_and_length_le_one_iff (l : List String) (u : String) :
    (l.contains u && decide (l.length ≤ 1)) = true ↔ l = [u] := by
  constructor
  · intro h
    have hmem : u ∈ l := List.elem_iff.mp (Bool.and_elim_left h)
    have hlen : l.length ≤ 1 := of_decide_eq_true (Bool.and_elim_right h)
    match l, hmem with
    | [a], hmem =>
        have : u = a := by simpa using hmem
        simp [this]
    | a :: b :: rest, _ => simp at hlen
  · intro h
    subst h
    simp

/-! ## Claim C2 -/

/-- C2: for every held permission set and required code, the
permission-implication check of knotty/acl.py returns true exactly per
the recursive definition of the specification (namespace-owner requires
namespace-owner held; namespace-admin requires the owner implication or
namespace-admin held; any other code requires the admin implication or
the code itself held), and the bulk check over a list of required codes
is the conjunction of the single checks. -/
theorem c2_permission_implication_matches_spec :
    (∀ (held : List PermissionCode) (required : PermissionCode),
      has_namespace_permission held required = implies_spec held required)
    ∧ (∀ (held needed : List PermissionCode),
      has_namespace_permissions held needed = true ↔
        ∀ required ∈ needed, implies_spec held required = true) := by
  constructor
  · exact has_namespace_permission_eq
  · intro held needed
    simp only [has_namespace_permissions, List.all_eq_true,
      has_namespace_permission_eq]

/-! ## Claim C8 -/

/-- C8 counterexample: an active regular viewer looking at a different
user.  The claim says the user-view check returns true because the
viewer is active, but can_view_user of knotty/acl.py treats the None
verdict of check_user_role like false and returns false. -/
theorem c8_counterexample :
    ¬ (can_view_user "alice" (check_user_role UserRole.regular) "bob"
      = can_view_user_claim "alice" UserRole.regular "bob") := by
  decide

/-- C8 amended: for every authenticated viewer and every target
username, the user-view check returns true if the viewer is the target
or the viewer is a global admin; otherwise (including for an active
regular viewer looking at another user) it returns false. -/
theorem c8_amended_can_view_user (viewer target : String) (role : UserRole) :
    can_view_user viewer (check_user_role role) target
      = (viewer == target || decide (role = UserRole.admin)) := by
  cases role <;>
    simp [can_view_user, check_user_role, is_admin, pyTruthy] <;>
    by_cases h : viewer == target <;> simp_all

/-! ## Claim C5 -/

/-- C5: the checksum length validator of knotty/schema.py compares the
hex-digit count of the value against the byte length of the algorithm,
so the well-formed 64-hex-digit sha256 value of the test payload of
tests/test_package.py is rejected, the 32-hex-digit md5 value of the
same payload is rejected, and the values it does accept for sha256 are
32 hex digits, which store only 16 bytes instead of the 32 required by
the invariant. -/
theorem c5_checksum_length_validator_rejects_valid_hex :
    package_checksum_accepted ChecksumAlgorithm.sha256
      "1234567890123456789012345678901212345678901234567890123456789012"
      = false
    ∧ package_checksum_accepted ChecksumAlgorithm.md5
      "12345678901234567890123456789012" = false
    ∧ package_checksum_accepted ChecksumAlgorithm.sha256
      "12345678901234567890123456789012" = true
    ∧ stored_checksum_byte_length "12345678901234567890123456789012"
      ≠ ChecksumAlgorithm.length ChecksumAlgorithm.sha256 := by
  refine ⟨by decide, by decide, by decide, by decide⟩

/-! ## Claim C6 -/

/-- C6: the tags validator of PackageCreate in knotty/schema.py
subscripts the validated-fields dict with the key version although the
field is named versions, so every payload with at least one tag raises
KeyError instead of being accepted or rejected as a validation error:
shown both for a tag naming an existing version of the payload and for
a tag naming a missing one. -/
theorem c6_tag_validator_raises_keyerror :
    package_create_tags_validation ["0.0.1"] [⟨"latest", "0.0.1"⟩]
      = ValidatorOutcome.keyError "version"
    ∧ package_create_tags_validation ["0.0.1"] [⟨"latest", "0.0.2"⟩]
      = ValidatorOutcome.keyError "version"
    ∧ package_create_tags_validation ["0.0.1"] []
      = ValidatorOutcome.accepted := by
  refine ⟨by decide, by decide, by decide⟩

/-! ## Claim C7 -/

/-- C7: get_current_user of knotty/auth.py catches JWTError generically
and ExpiredSignatureError is a JWTError subclass, so an expired token
fails 401 with the generic detail instead of the detail Session
expired; malformed tokens, payloads without a subject, and subjects
that resolve to no current user also fail 401 with the generic
detail. -/
theorem c7_expired_token_gets_generic_detail :
    get_current_user JwtDecode.expiredSignature (fun _ => true)
      = AuthResult.err ⟨401, "Could not authenticate the user", none⟩
    ∧ get_current_user JwtDecode.expiredSignature (fun _ => true)
      ≠ AuthResult.err ⟨401, "Session expired", none⟩
    ∧ get_current_user JwtDecode.otherJwtError (fun _ => true)
      = AuthResult.err ⟨401, "Could not authenticate the user", none⟩
    ∧ get_current_user (JwtDecode.ok none) (fun _ => true)
      = AuthResult.err ⟨401, "Could not authenticate the user", none⟩
    ∧ get_current_user (JwtDecode.ok (some "username:ghost")) (fun _ => false)
      = AuthResult.err ⟨401, "Could not authenticate the user", none⟩
    ∧ get_current_user (JwtDecode.ok (some "username:alice")) (fun u => u == "alice")
      = AuthResult.ok "alice" := by
  refine ⟨by decide, by decide, by decide, by decide, by decide, by decide⟩

/-! ## Claim C9 -/

/-- C9: the get_package_id dependency of knotty/route/package.py raises
NoPermissionException with detail Package for a package with no
existing record, so a request to a package sub-resource endpoint such
as GET /package/absent/version answers HTTP 403 with detail Package and
no what field, not the HTTP 404 not-found with what Package that the
claim states. -/
theorem c9_missing_package_gives_403_not_404 :
    get_package_versions_route ⟨["tester"], [], []⟩ "absent"
      = Except.error ⟨403, "Package", none⟩
    ∧ (403 : Nat) ≠ 404
    ∧ no_permission_error (some "Package") ≠ not_found_error "Package" := by
  refine ⟨rfl, by decide, by decide⟩

/-! ## Claim C1 -/

/-- C1: the role-delete guard of knotty/route/namespace.py is inverted:
it raises RoleNotEmptyException exactly when get_namespace_role_empty
is true.  For an admin caller, deleting role r while member bob is
assigned to it succeeds and removes the role, and deleting the same
role when no member references it answers 400 role-not-empty; the claim
states the opposite of both. -/
theorem c1_role_delete_guard_inverted :
    delete_namespace_role_route
      ⟨[⟨"owner", [PermissionCode.namespace_owner]⟩, ⟨"r", []⟩],
       [⟨"tester", "owner"⟩, ⟨"bob", "r"⟩]⟩ "root" UserRole.admin "r"
      = (RouteOutcome.ok "Namespace role deleted",
         ⟨[⟨"owner", [PermissionCode.namespace_owner]⟩],
          [⟨"tester", "owner"⟩, ⟨"bob", "r"⟩]⟩)
    ∧ delete_namespace_role_route
      ⟨[⟨"owner", [PermissionCode.namespace_owner]⟩, ⟨"r", []⟩],
       [⟨"tester", "owner"⟩]⟩ "root" UserRole.admin "r"
      = (RouteOutcome.error role_not_empty_error,
         ⟨[⟨"owner", [PermissionCode.namespace_owner]⟩, ⟨"r", []⟩],
          [⟨"tester", "owner"⟩]⟩) := by
  refine ⟨by decide, by decide⟩

/-! ## Claim C10 -/

/-- C10: when the caller of DELETE /namespace/ns/user/u targets
themselves, the namespace-admin requirement of the handler is skipped
and the permission-coverage check passes trivially, so any member may
remove themselves subject only to the last-owner guard: if the owner
list is exactly the caller the handler answers 400
no-namespace-owner-remains and leaves membership unchanged, and
otherwise the membership row is deleted. -/
theorem c10_self_removal_skips_admin_check (db : NamespaceDb)
    (auth_username : String) (auth_role : UserRole)
    (hmem : db.members.any (fun m => m.username == auth_username) = true) :
    delete_namespace_user_route db auth_username auth_role auth_username =
      if get_namespace_owners db = [auth_username] then
        (RouteOutcome.error no_namespace_owner_remains_error, db)
      else
        (RouteOutcome.ok "User removed from namespace",
         { db with
           members := db.members.eraseP
             (fun m => m.username == auth_username) }) := by
  simp only [delete_namespace_user_route, bne_self_eq_false, Bool.false_and,
    has_namespace_permissions_self, Bool.not_true, Bool.and_false,
    Bool.false_eq_true, if_false]
  by_cases h : get_namespace_owners db = [auth_username]
  · rw [if_pos ((contains_and_length_le_one_iff _ _).mpr h), if_pos h]
  · rw [if_neg (fun hc => h ((contains_and_length_le_one_iff _ _).mp hc)),
      if_neg h]
    simp only [delete_namespace_user, hmem, if_true]

/-- C10 witness: member alice removes herself from a namespace with two
owner-role holders; the admin check is not satisfied (alice is a
regular user) yet the removal succeeds and deletes her membership
row. -/
theorem c10_witness :
    delete_namespace_user_route
      ⟨[⟨"owner", [PermissionCode.namespace_owner]⟩],
       [⟨"alice", "owner"⟩, ⟨"bob", "owner"⟩]⟩ "alice" UserRole.regular "alice"
      = (RouteOutcome.ok "User removed from namespace",
         ⟨[⟨"owner", [PermissionCode.namespace_owner]⟩],
          [⟨"bob", "owner"⟩]⟩) := by
  have h := c10_self_removal_skips_admin_check
    ⟨[⟨"owner", [PermissionCode.namespace_owner]⟩],
     [⟨"alice", "owner"⟩, ⟨"bob", "owner"⟩]⟩ "alice" UserRole.regular (by decide)
  rw [h]
  decide


/-! ## Claim C3 -/

/-- An empty unknown-owner list means every requested owner is a known
user. -/
theorem mem_users_of_unknown_empty (db : RegistryDb) (owners : List String)
    (h : get_unknown_users db owners = []) (u : String)
    (hu : u ∈ owners) : u ∈ db.users := by
  have hne := List.filter_eq_nil_iff.mp h u hu
  have hc : db.users.contains u = true := by simpa using hne
  exact List.elem_iff.mp hc

/-- The facts about the stored owner column that the create route
guarantees: with the caller in the owner set and no unknown owner, the
stored filter of the users table contains the caller and is
nonempty. -/
theorem stored_owners_facts (db : RegistryDb) (auth_username : String)
    (own : List String)
    (hcont : own.contains auth_username = true)
    (hunk : get_unknown_users db own = []) :
    (db.users.filter (fun u => own.contains u)).contains auth_username = true
    ∧ db.users.filter (fun u => own.contains u) ≠ [] := by
  have hmem : auth_username ∈ db.users :=
    mem_users_of_unknown_empty db own hunk auth_username
      (List.elem_iff.mp hcont)
  have hstored : auth_username ∈ db.users.filter (fun u => own.contains u) :=
    List.mem_filter.mpr ⟨hmem, hcont⟩
  exact ⟨List.elem_iff.mpr hstored, List.ne_nil_of_mem hstored⟩

/-- Tail of the create_package handler, shared by the two owner-set
cases: a success stores the package row built by create_package, whose
owners contain the caller. -/
theorem create_route_tail_facts (db : RegistryDb) (auth_username : String)
    (body : PackageCreateBody) (own : List String) (db2 : RegistryDb)
    (hcont : own.contains auth_username = true)
    (h : (if !(get_unknown_users db own).isEmpty then
            (RouteOutcome.error (unknown_owners_error
              (get_unknown_users db own)), db)
          else if !(get_unknown_packages db
              (body.versions.flatMap (fun v => v.dependencies))).isEmpty then
            (RouteOutcome.error (unknown_dependencies_error
              (get_unknown_packages db
                (body.versions.flatMap (fun v => v.dependencies)))), db)
          else
            match create_package db body own with
            | none => (RouteOutcome.internalError, db)
            | some db3 => (RouteOutcome.ok "Package created", db3))
        = (RouteOutcome.ok "Package created", db2)) :
    ∃ p ∈ db2.packages, p.name = body.name
      ∧ p.owners.contains auth_username = true ∧ p.owners ≠ [] := by
  split at h
  · simp at h
  · split at h
    · simp at h
    · rename_i hunk _
      cases hcreate : create_package db body own with
      | none => rw [hcreate] at h; simp at h
      | some db3 =>
        rw [hcreate] at h
        simp only [Prod.mk.injEq, RouteOutcome.ok.injEq, true_and] at h
        subst h
        simp only [create_package] at hcreate
        split at hcreate
        · simp at hcreate
        · split at hcreate
          · simp at hcreate
          · simp only [Option.some.injEq] at hcreate
            subst hcreate
            have hunk2 : get_unknown_users db own = [] := by
              have hemp : (get_unknown_users db own).isEmpty = true := by
                simpa using hunk
              exact List.isEmpty_iff.mp hemp
            obtain ⟨hc, hne⟩ := stored_owners_facts db auth_username own
              hcont hunk2
            refine ⟨{ name := body.name, nspace := body.nspace,
                      summary := body.summary, labels := body.labels,
                      owners := db.users.filter (fun u => own.contains u),
                      versions := body.versions.map (fun v => v.version),
                      tags := body.tags }, ?_, rfl, hc, hne⟩
            exact List.mem_append.mpr (Or.inr (List.mem_singleton.mpr rfl))

/-- C3: every successful package mutation leaves the owner set
non-empty.  A successful POST /package stores a package whose owners
include the authenticated caller, even when the payload omits them; a
POST /package/p edit whose owner list is empty never succeeds and
leaves the registry unchanged; and when every earlier guard of the edit
handler passes, the empty-owner edit fails precisely with
no-package-owner-remains. -/
theorem c3_package_owner_invariant :
    (∀ (db : RegistryDb) (auth_username : String) (auth_role : UserRole)
        (body : PackageCreateBody) (db2 : RegistryDb),
      create_package_route db auth_username auth_role body
          = (RouteOutcome.ok "Package created", db2) →
      ∃ p ∈ db2.packages, p.name = body.name
        ∧ p.owners.contains auth_username = true ∧ p.owners ≠ [])
    ∧ (∀ (db : RegistryDb) (auth_username : String) (auth_role : UserRole)
        (package : String) (body : PackageEditBody),
      body.owners = [] →
      (edit_package_route db auth_username auth_role package body).2 = db
        ∧ ∀ msg, (edit_package_route db auth_username auth_role package body).1
            ≠ RouteOutcome.ok msg)
    ∧ (∀ (db : RegistryDb) (auth_username : String) (auth_role : UserRole)
        (package : String) (body : PackageEditBody) (current : PkgRecord),
      get_package_brief db package = some current →
      can_edit_package db auth_username auth_role package = true →
      body.nspace = current.nspace →
      (current.name != body.name && get_package_exists db body.name) = false →
      can_edit_owners db auth_username current (is_admin auth_role) = true →
      body.owners = [] →
      edit_package_route db auth_username auth_role package body
          = (RouteOutcome.error no_package_owner_remains_error, db)) := by
  refine ⟨?_, ?_, ?_⟩
  · intro db auth_username auth_role body db2 h
    simp only [create_package_route] at h
    split at h
    · simp at h
    · split at h
      · simp at h
      · split at h
        · simp at h
        · split at h
          · rename_i hcont
            exact create_route_tail_facts db auth_username body body.owners
              db2 hcont h
          · exact create_route_tail_facts db auth_username body
              (body.owners ++ [auth_username]) db2
              (List.elem_iff.mpr (List.mem_append.mpr
                (Or.inr (List.mem_singleton.mpr rfl)))) h
  · intro db auth_username auth_role package body howners
    cases hbrief : get_package_brief db package with
    | none => simp [edit_package_route, hbrief]
    | some current =>
      simp only [edit_package_route, hbrief, howners]
      constructor
      · split_ifs <;> simp_all [get_unknown_users]
      · split_ifs <;> simp_all [get_unknown_users]
  · intro db auth_username auth_role package body current hbrief hedit hns hname
      hown howners
    have hbne : (body.nspace != current.nspace) = false := by
      simp [hns]
    simp [edit_package_route, hbrief, hedit, hbne, hname, hown, howners,
      get_unknown_users]

/-- C3 witness: an admin creates package p with an owner list that
omits them, and the stored row contains them; the resulting owner then
edits the package with an empty owner list, which leaves the registry
unchanged and fails exactly with no-package-owner-remains. -/
theorem c3_witness :
    (∃ p ∈ (⟨["tester"], [],
        [⟨"p", none, "s", [], ["tester"], [], []⟩]⟩ : RegistryDb).packages,
      p.name = "p" ∧ p.owners.contains "tester" = true ∧ p.owners ≠ [])
    ∧ (edit_package_route
        ⟨["tester"], [], [⟨"p", none, "s", [], ["tester"], [], []⟩]⟩
        "tester" UserRole.regular "p" ⟨"p", "s", none, [], []⟩).2
      = ⟨["tester"], [], [⟨"p", none, "s", [], ["tester"], [], []⟩]⟩
    ∧ edit_package_route
        ⟨["tester"], [], [⟨"p", none, "s", [], ["tester"], [], []⟩]⟩
        "tester" UserRole.regular "p" ⟨"p", "s", none, [], []⟩
      = (RouteOutcome.error no_package_owner_remains_error,
         ⟨["tester"], [], [⟨"p", none, "s", [], ["tester"], [], []⟩]⟩) := by
  refine ⟨?_, ?_, ?_⟩
  · exact c3_package_owner_invariant.1 ⟨["tester"], [], []⟩ "tester"
      UserRole.admin ⟨"p", "s", none, [], [], [], []⟩
      ⟨["tester"], [], [⟨"p", none, "s", [], ["tester"], [], []⟩]⟩ (by decide)
  · exact (c3_package_owner_invariant.2.1
      ⟨["tester"], [], [⟨"p", none, "s", [], ["tester"], [], []⟩]⟩
      "tester" UserRole.regular "p" ⟨"p", "s", none, [], []⟩ rfl).1
  · exact c3_package_owner_invariant.2.2
      ⟨["tester"], [], [⟨"p", none, "s", [], ["tester"], [], []⟩]⟩
      "tester" UserRole.regular "p" ⟨"p", "s", none, [], []⟩
      ⟨"p", none, "s", [], ["tester"], [], []⟩
      (by decide) (by decide) rfl (by decide) (by decide) rfl

/-! ## Claim C4 -/

/-- C4: for an edit of an existing package whose requested namespace
differs from the current one, success entails that the caller is a
global admin or both holds the namespace-admin implication in the old
namespace (when one exists) and the package-create implication in the
requested namespace (when one is requested); when that condition fails
the handler answers no-permission and leaves the registry unchanged. -/
theorem c4_cross_namespace_move (db : RegistryDb) (auth_username : String)
    (auth_role : UserRole) (package : String) (body : PackageEditBody)
    (current : PkgRecord)
    (hcur : get_package_brief db package = some current)
    (hns : body.nspace ≠ current.nspace) :
    (∀ msg db2, edit_package_route db auth_username auth_role package body
        = (RouteOutcome.ok msg, db2) →
      namespace_move_allowed db auth_username auth_role current.nspace
        body.nspace = true)
    ∧ (namespace_move_allowed db auth_username auth_role current.nspace
        body.nspace = false →
      edit_package_route db auth_username auth_role package body
        = (RouteOutcome.error (no_permission_error none), db)) := by
  have hbne : (body.nspace != current.nspace) = true := bne_iff_ne.mpr hns
  constructor
  · intro msg db2 h
    simp only [edit_package_route, hcur] at h
    split at h
    · simp at h
    · split at h
      · simp at h
      · split at h
        · simp at h
        · rename_i hc1 hc2
          rw [Bool.not_eq_true, hbne, Bool.true_and] at hc1 hc2
          unfold namespace_move_allowed
          by_cases hadm : is_admin auth_role = true
          · simp [hadm]
          · rw [Bool.not_eq_true] at hadm
            simp only [hadm, Bool.false_or]
            rw [Bool.and_eq_true]
            refine ⟨?_, ?_⟩
            · cases hcns : current.nspace with
              | none => rfl
              | some o =>
                rw [hcns] at hc1
                simp [hadm] at hc1
                simpa using hc1
            · cases hbns : body.nspace with
              | none => rfl
              | some n =>
                rw [hbns] at hc2
                simp [hadm] at hc2
                simpa using hc2
  · intro hallow
    unfold namespace_move_allowed at hallow
    rw [Bool.or_eq_false_iff] at hallow
    obtain ⟨hadm, hrest⟩ := hallow
    rw [Bool.and_eq_false_iff] at hrest
    simp only [edit_package_route, hcur]
    by_cases hA : can_edit_package db auth_username auth_role package = true
    · simp only [hA, Bool.not_true, Bool.false_eq_true, if_false]
      cases hrest with
      | inl holdf =>
        cases hcns : current.nspace with
        | none => rw [hcns] at holdf; simp at holdf
        | some o =>
          rw [hcns] at holdf hbne
          simp only [] at holdf
          have hcond1 : (body.nspace != some o &&
              (match some o with
               | some old_ns => !is_admin auth_role
                   && !has_namespace_permission
                     (registry_namespace_user_permissions db old_ns
                       auth_username) .namespace_admin
               | none => false)) = true := by
            simp only [hbne, Bool.true_and, hadm]
            simp [holdf]
          rw [hcond1]
          simp
      | inr hnewf =>
        cases hbns : body.nspace with
        | none => rw [hbns] at hnewf; simp at hnewf
        | some n =>
          rw [hbns] at hnewf hbne
          simp only [] at hnewf
          by_cases hcond1 : (some n != current.nspace &&
              (match current.nspace with
               | some old_ns => !is_admin auth_role
                   && !has_namespace_permission
                     (registry_namespace_user_permissions db old_ns
                       auth_username) .namespace_admin
               | none => false)) = true
          · rw [hcond1]
            simp
          · rw [Bool.not_eq_true] at hcond1
            have hcond2 : (some n != current.nspace &&
                (match some n with
                 | some new_ns => !is_admin auth_role
                     && !has_namespace_permission
                       (registry_namespace_user_permissions db new_ns
                         auth_username) .package_create
                 | none => false)) = true := by
              simp only [hbne, Bool.true_and, hadm]
              simp [hnewf]
            rw [hcond1, hcond2]
            simp
    · rw [Bool.not_eq_true] at hA
      simp [hA]

/-- C4 witness: package p sits in namespace a; an admin moves it to
namespace b successfully, so the allowed condition holds for them, and
a regular user with no namespace permissions attempting the same move
is answered no-permission with the registry unchanged. -/
theorem c4_witness :
    namespace_move_allowed
      ⟨["root", "tester", "eve"], [("a", ⟨[], []⟩), ("b", ⟨[], []⟩)],
       [⟨"p", some "a", "s", [], ["tester"], [], []⟩]⟩
      "root" UserRole.admin (some "a") (some "b") = true
    ∧ edit_package_route
      ⟨["root", "tester", "eve"], [("a", ⟨[], []⟩), ("b", ⟨[], []⟩)],
       [⟨"p", some "a", "s", [], ["tester"], [], []⟩]⟩
      "eve" UserRole.regular "p" ⟨"p", "s", some "b", [], ["tester"]⟩
      = (RouteOutcome.error (no_permission_error none),
         ⟨["root", "tester", "eve"], [("a", ⟨[], []⟩), ("b", ⟨[], []⟩)],
          [⟨"p", some "a", "s", [], ["tester"], [], []⟩]⟩) := by
  constructor
  · exact (c4_cross_namespace_move _ "root" UserRole.admin "p"
      ⟨"p", "s", some "b", [], ["tester"]⟩
      ⟨"p", some "a", "s", [], ["tester"], [], []⟩ (by decide) (by decide)).1
      "Package updated"
      ⟨["root", "tester", "eve"], [("a", ⟨[], []⟩), ("b", ⟨[], []⟩)],
       [⟨"p", some "b", "s", [], ["tester"], [], []⟩]⟩ (by decide)
  · exact (c4_cross_namespace_move _ "eve" UserRole.regular "p"
      ⟨"p", "s", some "b", [], ["tester"]⟩
      ⟨"p", some "a", "s", [], ["tester"], [], []⟩ (by decide) (by decide)).2
      (by simp only [namespace_move_allowed, has_namespace_permission_eq]
          decide)
